import Mathlib

/-!
Verification development for the patch-review CLI (`patch_review_cli.py`).

The script orchestrates: URL resolution (`get_repo_info_from_url`),
repository provisioning (`ensure_repository`), isolation-branch creation and
multi-strategy patch application (`apply_patch`), and the driver (`main`).
External process invocations (`run_command`) and network calls are modelled
by explicit environments recording each invocation's outcome; the functions
below mirror the Python control flow over those environments.
-/

namespace PatchReview

/-! ### Outcome of one external command invocation (`subprocess.run`) -/

/-- Result of running one external command: normal exit with stdout/stderr,
distinguishing exit code 0 (`ok`), non-zero exit (`fail`), or a raised
exception (`exn`), as observed by `run_command`. -/
inductive CmdResult where
  | ok (stdout : String)
  | fail (stderr : String)
  | exn (msg : String)
deriving DecidableEq, Repr

/-- Python `s.strip()`: remove leading and trailing whitespace. -/
def pyStrip (s : String) : String :=
  String.mk (((s.data.dropWhile Char.isWhitespace).reverse.dropWhile
    Char.isWhitespace).reverse)

/-- `run_command(cmd, capture=True)`: returns the stripped stdout on exit
code 0, `None` (here `none`) on non-zero exit or exception. -/
def runCapture : CmdResult → Option String
  | CmdResult.ok s => some (pyStrip s)
  | CmdResult.fail _ => none
  | CmdResult.exn _ => none

/-- Messages printed by `run_command(cmd, capture=True)` on failure. -/
def captureMessages (cmd : String) : CmdResult → List String
  | CmdResult.ok _ => []
  | CmdResult.fail e => ["Command failed: " ++ cmd, "Error: " ++ e]
  | CmdResult.exn e => ["Error running command " ++ cmd ++ ": " ++ e]

/-- `run_command(cmd, capture=False)`: returns `returncode == 0`; an
exception returns `None`, which is falsy at every call site, so it is
collapsed to `false`. -/
def runNoCapture : CmdResult → Bool
  | CmdResult.ok _ => true
  | CmdResult.fail _ => false
  | CmdResult.exn _ => false

/-- Messages printed by `run_command(cmd, capture=False)` (only the
exception path prints). -/
def noCaptureMessages (cmd : String) : CmdResult → List String
  | CmdResult.exn e => ["Error running command " ++ cmd ++ ": " ++ e]
  | _ => []

/-- Python truthiness of an `Optional[str]`: `None` and `""` are falsy. -/
def optTruthy : Option String → Bool
  | none => false
  | some s => !s.isEmpty

/-! ### String helpers mirroring the Python operations used by the script -/

/-- Python `pat in hay` (substring containment) on character lists. -/
def charsContains (pat : List Char) : List Char → Bool
  | [] => pat.isEmpty
  | c :: tl => pat.isPrefixOf (c :: tl) || charsContains pat tl

/-- Python `pat in hay` on strings. -/
def strContainsSub (hay pat : String) : Bool :=
  charsContains pat.data hay.data

/-- Python `s.strip("/")`: remove leading and trailing `/` characters. -/
def stripSlashes (s : String) : String :=
  String.mk (((s.data.dropWhile (fun c => c == '/')).reverse.dropWhile
    (fun c => c == '/')).reverse)

/-- Python `s.split(sep)` for a single-character separator `sep`
(accumulator-based, over the character list). -/
def splitCharAux (sep : Char) : List Char → List Char → List String
  | [], acc => [String.mk acc.reverse]
  | c :: tl, acc =>
    if c == sep then String.mk acc.reverse :: splitCharAux sep tl []
    else splitCharAux sep tl (c :: acc)

/-- Python `s.split("/")`. -/
def pySplitSlash (s : String) : List String :=
  splitCharAux '/' s.data []

/-- Python `s.split("/")[-1]`. -/
def lastPathSegment (s : String) : String :=
  (pySplitSlash s).getLastD ""

/-! ### `urlparse` (netloc and path components, as the script uses them) -/

/-- The two components of `urllib.parse.urlparse` that the script reads. -/
structure ParsedUrl where
  netloc : String
  path : String
deriving DecidableEq, Repr

/-- Suffix of `l` after the first occurrence of `pat`, if any. -/
def dropAfterSub (pat : List Char) : List Char → Option (List Char)
  | [] => if pat.isEmpty then some [] else none
  | c :: tl =>
    if pat.isPrefixOf (c :: tl) then some ((c :: tl).drop pat.length)
    else dropAfterSub pat tl

/-- `urlparse`: the netloc is the text between `://` and the next
`/`, `?` or `#`; the path runs from there to the first `?` or `#`.
A URL without `://` has an empty netloc and is all path (before any
query/fragment), matching `urllib.parse.urlparse` on the scheme-less
strings this script can receive. -/
def urlparse (url : String) : ParsedUrl :=
  match dropAfterSub "://".data url.data with
  | none =>
      ⟨"", String.mk (url.data.takeWhile (fun c => c != '?' && c != '#'))⟩
  | some rest =>
      let netloc := rest.takeWhile (fun c => c != '/' && c != '?' && c != '#')
      let rest2 := rest.drop netloc.length
      ⟨String.mk netloc, String.mk (rest2.takeWhile (fun c => c != '?' && c != '#'))⟩

/-! ### `get_repo_info_from_url` -/

/-- Body of `get_repo_info_from_url` after `urlparse`: GitHub-substring
netlocs with at least two path segments yield a locator built with the
literal host `github.com`; Mozilla Phabricator netlocs yield the fixed
firefox locator; everything else yields `None`. -/
def getRepoInfoParsed (p : ParsedUrl) : Option (String × String × String) :=
  if strContainsSub p.netloc "github.com" then
    let pathParts := pySplitSlash (stripSlashes p.path)
    if 2 ≤ pathParts.length then
      let owner := pathParts.getD 0 ""
      let repo := pathParts.getD 1 ""
      some ("https://github.com/" ++ owner ++ "/" ++ repo ++ ".git", owner, repo)
    else none
  else if strContainsSub p.netloc "phabricator" && strContainsSub p.netloc "mozilla" then
    some ("https://github.com/mozilla-firefox/firefox/", "mozilla-firefox", "firefox")
  else none

/-- `get_repo_info_from_url(url)`. -/
def get_repo_info_from_url (url : String) : Option (String × String × String) :=
  getRepoInfoParsed (urlparse url)

/-! ### Patch-URL pattern matching (`download_github_patch`,
`download_phabricator_patch`, `get_review_filename`) -/

/-- Greedy `[pred]+`: the maximal nonempty run of characters satisfying
`p`, paired with the remainder; `none` when the run would be empty. -/
def takeWhile1 (p : Char → Bool) (l : List Char) : Option (List Char × List Char) :=
  let t := l.takeWhile p
  if t.isEmpty then none else some (t, l.drop t.length)

/-- Remainder after a required literal prefix. -/
def stripLit (pre : List Char) (l : List Char) : Option (List Char) :=
  if pre.isPrefixOf l then some (l.drop pre.length) else none

/-- The `/D(\d+)` part of the Phabricator pattern, applied to what
follows the host: requires a literal `/D` and at least one digit. -/
def phabAfterHost : List Char → Option String
  | '/' :: 'D' :: tail =>
    (takeWhile1 Char.isDigit tail).map (fun ds => String.mk ds.1)
  | _ => none

/-- `re.match(r"(https://[^/]+)/D(\d+)", url)` from
`download_phabricator_patch`: the match is anchored at the start of the
URL, so the `/D<digits>` must be the entire beginning of the path.
Returns `(base_url, diff_id)` on a match. -/
def phabMatch (url : String) : Option (String × String) :=
  (stripLit "https://".data url.data).bind (fun rest =>
    (takeWhile1 (fun c => c != '/') rest).bind (fun hostRest =>
      (phabAfterHost hostRest.2).map (fun ds =>
        (String.mk ("https://".data ++ hostRest.1), ds))))

/-- `download_phabricator_patch`: the download endpoint derived from the
URL, or `none` when the pattern does not match (the Python raises
`ValueError` there). -/
def download_phabricator_patch_url (url : String) : Option String :=
  (phabMatch url).map (fun bd => bd.1 ++ "/D" ++ bd.2 ++ "?download=true")

/-- `re.search(r"/D(\d+)", url)` as used by `get_review_filename`'s
`phab_match`: finds `/D<digits>` ANYWHERE in the string and returns the
digits.  (This is also the extraction rule the spec ascribes to the
download path.) -/
def phabDiffIdSearch : List Char → Option String
  | [] => none
  | '/' :: rest =>
    (match rest with
     | 'D' :: tail =>
       (match takeWhile1 Char.isDigit tail with
        | some (ds, _) => some (String.mk ds)
        | none => phabDiffIdSearch rest)
     | _ => phabDiffIdSearch rest)
  | _ :: rest => phabDiffIdSearch rest

/-- `re.match(r"https://github\.com/([^/]+)/([^/]+)/pull/(\d+)", url)`. -/
def githubPullMatch (url : String) : Option (String × String × String) :=
  match stripLit "https://github.com/".data url.data with
  | none => none
  | some r1 =>
    match takeWhile1 (fun c => c != '/') r1 with
    | none => none
    | some (owner, r2) =>
      match stripLit "/".data r2 with
      | none => none
      | some r3 =>
        match takeWhile1 (fun c => c != '/') r3 with
        | none => none
        | some (repo, r4) =>
          match stripLit "/pull/".data r4 with
          | none => none
          | some r5 =>
            match takeWhile1 Char.isDigit r5 with
            | none => none
            | some (num, _) =>
              some (String.mk owner, String.mk repo, String.mk num)

/-- `re.match(r"https://github\.com/([^/]+)/([^/]+)/commit/([a-f0-9]+)", url)`. -/
def githubCommitMatch (url : String) : Option (String × String × String) :=
  match stripLit "https://github.com/".data url.data with
  | none => none
  | some r1 =>
    match takeWhile1 (fun c => c != '/') r1 with
    | none => none
    | some (owner, r2) =>
      match stripLit "/".data r2 with
      | none => none
      | some r3 =>
        match takeWhile1 (fun c => c != '/') r3 with
        | none => none
        | some (repo, r4) =>
          match stripLit "/commit/".data r4 with
          | none => none
          | some r5 =>
            match takeWhile1 (fun c => c.isDigit || ('a' ≤ c && c ≤ 'f')) r5 with
            | none => none
            | some (sha, _) =>
              some (String.mk owner, String.mk repo, String.mk sha)

/-- `download_github_patch`: the `.diff` endpoint derived from a PR or
commit URL, or `none` when neither pattern matches (Python raises
`ValueError`). -/
def download_github_patch_url (url : String) : Option String :=
  match githubPullMatch url with
  | some (o, r, n) =>
    some ("https://github.com/" ++ o ++ "/" ++ r ++ "/pull/" ++ n ++ ".diff")
  | none =>
    match githubCommitMatch url with
    | some (o, r, c) =>
      some ("https://github.com/" ++ o ++ "/" ++ r ++ "/commit/" ++ c ++ ".diff")
    | none => none

/-! ### `ensure_repository` -/

/-- Filesystem abstraction: the set of existing paths. -/
structure FS where
  paths : List String
deriving DecidableEq, Repr

/-- `Path.exists()`. -/
def FS.pathExists (fs : FS) (p : String) : Bool :=
  fs.paths.any (fun q => q == p)

/-- External operations performed by `ensure_repository`. -/
inductive EnsureEffect where
  | fetch
  | mkdirParent
  | clone
deriving DecidableEq, Repr

/-- Outcomes of the external commands `ensure_repository` may run. -/
structure EnsureEnv where
  fetchOk : Bool
  cloneOk : Bool
deriving DecidableEq, Repr

/-- Result of one `ensure_repository` call: the returned path (or `None`),
the filesystem afterwards, the effects performed, and the printed lines. -/
structure EnsureResult where
  path : Option String
  fs : FS
  effects : List EnsureEffect
  messages : List String
deriving DecidableEq, Repr

/-- `ensure_repository(repo_url, owner, repo, base_dir)`.  If the
repository directory and its `.git` exist, fetch (warn on failure) and
return the path; otherwise create the parent directory and clone.  A
successful `git clone` creates the repository directory together with its
`.git` metadata; a failed clone leaves no repository directory. -/
def ensure_repository (env : EnsureEnv) (fs : FS)
    (repoUrl owner repo baseDir : String) : EnsureResult :=
  let repoPath := baseDir ++ "/" ++ owner ++ "/" ++ repo
  let gitPath := repoPath ++ "/.git"
  let parentPath := baseDir ++ "/" ++ owner
  if fs.pathExists repoPath && fs.pathExists gitPath then
    { path := some repoPath
      fs := fs
      effects := [EnsureEffect.fetch]
      messages :=
        ["Repository already exists at: " ++ repoPath, "Updating repository..."]
          ++ (if env.fetchOk then ["Repository updated successfully"]
              else ["Warning: Failed to update repository"]) }
  else
    let fs1 : FS := ⟨parentPath :: fs.paths⟩
    let m0 := ["Cloning repository " ++ repoUrl ++ " to " ++ repoPath]
    if env.cloneOk then
      { path := some repoPath
        fs := ⟨repoPath :: gitPath :: fs1.paths⟩
        effects := [EnsureEffect.mkdirParent, EnsureEffect.clone]
        messages := m0 ++ ["Repository cloned successfully to: " ++ repoPath] }
    else
      { path := none
        fs := fs1
        effects := [EnsureEffect.mkdirParent, EnsureEffect.clone]
        messages := m0 ++ ["Error: Failed to clone repository"] }

/-! ### `apply_patch` -/

/-- Which application strategy produced the reported success. -/
inductive Strategy where
  | threeWay
  | plain
  | whitespaceFix
  | noStrategy
deriving DecidableEq, Repr

/-- The git invocations `apply_patch` can perform, in trace form. -/
inductive GitCmd where
  | status
  | stash
  | resetHard
  | clean
  | symbolicRef
  | branchList
  | checkoutMain (branch : String)
  | pullMain (branch : String)
  | checkoutNewBranch (name : String)
  | apply3way
  | applyPlain
  | applyWhitespace
  | applyCheck
  | applyStat
deriving DecidableEq, Repr

/-- Outcomes of the git commands `apply_patch` may run (each invocation's
exit status is the sole signal the script consumes). -/
structure GitEnv where
  status : CmdResult
  stash : CmdResult
  resetHard : CmdResult
  clean : CmdResult
  symbolicRef : CmdResult
  branchList : CmdResult
  checkoutMain : CmdResult
  pullMain : CmdResult
  checkoutNewBranch : CmdResult
  apply3way : CmdResult
  applyPlain : CmdResult
  applyWhitespace : CmdResult
  applyCheck : CmdResult
  applyStat : CmdResult
deriving DecidableEq, Repr

/-- Scan of the `git branch -r` listing (the `elif` chain of
`apply_patch`): substring tests for `origin/main` then `origin/master`,
defaulting to `main`. -/
def scanBranchListing (branches : Option String) : String :=
  if optTruthy branches && strContainsSub (branches.getD "") "origin/main" then "main"
  else if optTruthy branches && strContainsSub (branches.getD "") "origin/master" then "master"
  else "main"

/-- Default-branch determination of `apply_patch`: the symbolic-ref output
(last path segment) when the command succeeded with non-empty output,
otherwise the branch-listing scan. -/
def determineMainBranch (symRef branches : Option String) : String :=
  if optTruthy symRef then lastPathSegment (symRef.getD "")
  else scanBranchListing branches

/-- Result of the branch-preparation phase of `apply_patch`
(`create_branch=True` block). -/
structure PrepResult where
  ok : Bool
  branchName : String
  mainBranch : String
  trace : List GitCmd
  messages : List String
deriving DecidableEq, Repr

/-- The `create_branch` block of `apply_patch`: status query, optional
stash with destructive fallback, default-branch determination, best-effort
checkout and pull of the default branch, and creation of the
`patch-review-<pid>` branch (the only step whose failure aborts). -/
def prepareBranch (env : GitEnv) (pid : Nat) : PrepResult :=
  let m0 := ["Cleaning up repository state..."]
  let statusOut := runCapture env.status
  let m1 := m0 ++ captureMessages "git status --porcelain" env.status
  let cleanupState : List GitCmd × List String :=
    if optTruthy statusOut then
      let mA := m1 ++ ["Found uncommitted changes, stashing them..."]
      let stashOk := runNoCapture env.stash
      let mB := mA ++ noCaptureMessages
        "git stash push -u -m 'Automated stash before patch review'" env.stash
      if stashOk then ([GitCmd.status, GitCmd.stash], mB)
      else
        ([GitCmd.status, GitCmd.stash, GitCmd.resetHard, GitCmd.clean],
         mB ++ ["Failed to stash changes, trying hard reset..."]
            ++ noCaptureMessages "git reset --hard HEAD" env.resetHard
            ++ noCaptureMessages "git clean -fd" env.clean)
    else ([GitCmd.status], m1)
  let tr1 := cleanupState.1
  let m2 := cleanupState.2
  let branchName := "patch-review-" ++ toString pid
  let m3 := m2 ++ ["Creating branch: " ++ branchName]
  let symRef := runCapture env.symbolicRef
  let m4 := m3 ++ captureMessages "git symbolic-ref refs/remotes/origin/HEAD" env.symbolicRef
  let branches := runCapture env.branchList
  let mainBranch := determineMainBranch symRef branches
  let branchState : List GitCmd × List String :=
    if optTruthy symRef then (tr1 ++ [GitCmd.symbolicRef], m4)
    else (tr1 ++ [GitCmd.symbolicRef, GitCmd.branchList],
          m4 ++ captureMessages "git branch -r" env.branchList)
  let tr2 := branchState.1
  let m5 := branchState.2
  let m6 := m5 ++ ["Switching to " ++ mainBranch ++ " branch..."]
        ++ noCaptureMessages ("git checkout " ++ mainBranch) env.checkoutMain
        ++ ["Updating " ++ mainBranch ++ " branch..."]
        ++ noCaptureMessages ("git pull origin " ++ mainBranch) env.pullMain
  let tr3 := tr2 ++ [GitCmd.checkoutMain mainBranch, GitCmd.pullMain mainBranch]
  let cbOk := runNoCapture env.checkoutNewBranch
  let m7 := m6 ++ noCaptureMessages ("git checkout -b " ++ branchName) env.checkoutNewBranch
  let tr4 := tr3 ++ [GitCmd.checkoutNewBranch branchName]
  if cbOk then ⟨true, branchName, mainBranch, tr4, m7⟩
  else ⟨false, branchName, mainBranch, tr4, m7 ++ ["Error: Failed to create branch"]⟩

/-- The reported outcome of one `apply_patch` call: the returned boolean,
the strategy whose success message was printed, the diagnostics printed by
the diagnostic-only pass, the git trace and all printed lines. -/
structure ApplyOutcome where
  succeeded : Bool
  strategyUsed : Strategy
  diagnostics : List String
  trace : List GitCmd
  messages : List String
deriving DecidableEq, Repr

/-- The strategy cascade of `apply_patch` (after the patch text is written
to the temporary file `patchFile`): three-way apply, then plain apply,
then whitespace-fix apply, each only when every earlier one failed; when
all three fail, a `--check` dry run and a `--stat` summary are collected
as diagnostics and failure is returned. -/
def applyStrategies (env : GitEnv) (patchFile : String) : ApplyOutcome :=
  let m0 := ["Applying patch..."]
  let ok3 := runNoCapture env.apply3way
  let m1 := m0 ++ noCaptureMessages ("git apply --3way " ++ patchFile) env.apply3way
  if ok3 then
    ⟨true, Strategy.threeWay, [], [GitCmd.apply3way],
      m1 ++ ["Patch applied successfully with 3-way merge"]⟩
  else
    let m2 := m1 ++ ["3-way merge failed, trying standard git apply..."]
    let okP := runNoCapture env.applyPlain
    let m3 := m2 ++ noCaptureMessages ("git apply " ++ patchFile) env.applyPlain
    if okP then
      ⟨true, Strategy.plain, [], [GitCmd.apply3way, GitCmd.applyPlain],
        m3 ++ ["Patch applied successfully"]⟩
    else
      let m4 := m3 ++ ["Standard apply failed, trying with whitespace fixes..."]
      let okW := runNoCapture env.applyWhitespace
      let m5 := m4 ++ noCaptureMessages ("git apply --whitespace=fix " ++ patchFile) env.applyWhitespace
      if okW then
        ⟨true, Strategy.whitespaceFix, [],
          [GitCmd.apply3way, GitCmd.applyPlain, GitCmd.applyWhitespace],
          m5 ++ ["Patch applied successfully with whitespace fixes"]⟩
      else
        let d0 := ["All apply methods failed. Checking for conflicts..."]
        let conflictOut := runCapture env.applyCheck
        let d1 := d0 ++ captureMessages ("git apply --check " ++ patchFile) env.applyCheck
        let d2 := d1 ++ (if optTruthy conflictOut
          then ["Conflict details: " ++ conflictOut.getD ""] else [])
        let d3 := d2 ++ ["Attempting to show what would be applied..."]
        let d4 := d3 ++ noCaptureMessages ("git apply --stat " ++ patchFile) env.applyStat
        let d5 := d4 ++ ["Error: Failed to apply patch cleanly"]
        ⟨false, Strategy.noStrategy, d5,
          [GitCmd.apply3way, GitCmd.applyPlain, GitCmd.applyWhitespace,
           GitCmd.applyCheck, GitCmd.applyStat],
          m5 ++ d5⟩

/-- `apply_patch(patch_content, repo_path, create_branch=True)`: branch
preparation followed by the strategy cascade; a branch-creation failure
returns `False` without attempting any strategy. -/
def applyPatch (env : GitEnv) (pid : Nat) (patchFile : String) : ApplyOutcome :=
  let prep := prepareBranch env pid
  if prep.ok then
    let s := applyStrategies env patchFile
    ⟨s.succeeded, s.strategyUsed, s.diagnostics,
      prep.trace ++ s.trace, prep.messages ++ s.messages⟩
  else
    ⟨false, Strategy.noStrategy, [], prep.trace, prep.messages⟩

/-! ### `main` -/

/-- Command-line arguments of `main` that drive the control flow. -/
structure MainArgs where
  url : String
  baseDir : String
  noCheckout : Bool
  noApply : Bool
deriving DecidableEq, Repr

/-- Outcome of one HTTP download (`requests.get` + `raise_for_status`). -/
inductive NetResult where
  | ok (body : String)
  | err
deriving DecidableEq, Repr

/-- Environment consumed by `main`: network outcomes, the git and
provisioning environments, the initial filesystem, the process id and the
temporary patch-file name. -/
structure MainEnv where
  githubNet : NetResult
  phabNet : NetResult
  git : GitEnv
  ensure : EnsureEnv
  fs : FS
  pid : Nat
  patchFile : String
deriving DecidableEq, Repr

/-- Externally visible stages of `main`. -/
inductive MainStep where
  | downloadGithub
  | downloadPhab
  | fetchComments
  | analyzeStandalone
  | ensureRepo
  | applyAttempt
  | warnApplyFailed
  | analyze (useOriginalPatch : Bool)
deriving DecidableEq, Repr

/-- Result of a `main` run: the exit code (`none` = normal return), the
stages reached, the git trace of the apply phase, and the provisioning
effects. -/
structure MainResult where
  exitCode : Option Nat
  steps : List MainStep
  gitTrace : List GitCmd
  ensureEffects : List EnsureEffect
deriving DecidableEq, Repr

/-- `parsed_url.path.startswith("/D")` (the Phabricator download
dispatch condition in `main`). -/
def pathStartsWithD (url : String) : Bool :=
  ("/D".data).isPrefixOf (urlparse url).path.data

/-- `main`: resolve the URL (exit 1 on `None` before any other action),
download the patch (exit 1 on unsupported form or download error), fetch
comments best-effort, then either analyze standalone (`--no-checkout`),
or provision the repository (exit 1 on failure), optionally apply the
patch, and analyze — using the original patch text whenever the patch was
not applied. -/
def mainFlow (args : MainArgs) (env : MainEnv) : MainResult :=
  match get_repo_info_from_url args.url with
  | none => ⟨some 1, [], [], []⟩
  | some (repoUrl, owner, repo) =>
    let p := urlparse args.url
    let dl : Bool × List MainStep :=
      if strContainsSub p.netloc "github.com" then
        match download_github_patch_url args.url with
        | none => (false, [])
        | some _ =>
          match env.githubNet with
          | NetResult.ok _ => (true, [MainStep.downloadGithub])
          | NetResult.err => (false, [MainStep.downloadGithub])
      else if pathStartsWithD args.url then
        match download_phabricator_patch_url args.url with
        | none => (false, [])
        | some _ =>
          match env.phabNet with
          | NetResult.ok _ => (true, [MainStep.downloadPhab])
          | NetResult.err => (false, [MainStep.downloadPhab])
      else (false, [])
    if !dl.1 then ⟨some 1, dl.2, [], []⟩
    else
      let steps1 := dl.2 ++ [MainStep.fetchComments]
      if args.noCheckout then
        ⟨none, steps1 ++ [MainStep.analyzeStandalone], [], []⟩
      else
        let er := ensure_repository env.ensure env.fs repoUrl owner repo args.baseDir
        match er.path with
        | none => ⟨some 1, steps1 ++ [MainStep.ensureRepo], [], er.effects⟩
        | some _ =>
          let steps2 := steps1 ++ [MainStep.ensureRepo]
          if args.noApply then
            ⟨none, steps2 ++ [MainStep.analyze true], [], er.effects⟩
          else
            let ap := applyPatch env.git env.pid env.patchFile
            let steps3 := steps2 ++ [MainStep.applyAttempt]
              ++ (if ap.succeeded then [] else [MainStep.warnApplyFailed])
            ⟨none, steps3 ++ [MainStep.analyze (!ap.succeeded)], ap.trace, er.effects⟩

/-- Concrete git environment in which every command succeeds except
`git checkout -b` (isolation-branch creation fails). -/
def cbFailGitEnv : GitEnv :=
  ⟨CmdResult.ok "", CmdResult.ok "", CmdResult.ok "", CmdResult.ok "",
   CmdResult.ok "refs/remotes/origin/main", CmdResult.ok "", CmdResult.ok "",
   CmdResult.ok "", CmdResult.fail "fatal: cannot create branch",
   CmdResult.ok "", CmdResult.ok "", CmdResult.ok "", CmdResult.ok "", CmdResult.ok ""⟩

/-- Concrete arguments: a GitHub pull-request URL, default flags. -/
def c3MainArgs : MainArgs :=
  ⟨"https://github.com/acme/widget/pull/42", "/base", false, false⟩

/-- Concrete `main` environment: downloads succeed, provisioning clones
successfully, and the git environment is `cbFailGitEnv`. -/
def c3MainEnv : MainEnv :=
  ⟨NetResult.ok "patch body", NetResult.err, cbFailGitEnv, ⟨true, true⟩,
   ⟨[]⟩, 7, "/tmp/p.patch"⟩

/-! ## Theorems -/

/-- Claim C5: default-branch determination follows the fixed fallback
order — first the remote's symbolic default-branch reference (its last
path segment), and only when that is unavailable the remote branch
listing is scanned for `origin/main` and then `origin/master`, with the
literal name `main` as the final fallback. -/
theorem default_branch_fallback_order (s b : String) :
    (∀ ob : Option String, s.isEmpty = false →
       determineMainBranch (some s) ob = lastPathSegment s) ∧
    (b.isEmpty = false → strContainsSub b "origin/main" = true →
       determineMainBranch none (some b) = "main") ∧
    (b.isEmpty = false → strContainsSub b "origin/main" = false →
       strContainsSub b "origin/master" = true →
       determineMainBranch none (some b) = "master") ∧
    (strContainsSub b "origin/main" = false →
       strContainsSub b "origin/master" = false →
       determineMainBranch none (some b) = "main") ∧
    determineMainBranch none none = "main" := by
  refine ⟨?_, ?_, ?_, ?_, ?_⟩
  · intro ob hs
    simp [determineMainBranch, optTruthy, hs]
  · intro hb h
    simp [determineMainBranch, scanBranchListing, optTruthy, hb, h]
  · intro hb h h'
    simp [determineMainBranch, scanBranchListing, optTruthy, hb, h, h']
  · intro h h'
    simp [determineMainBranch, scanBranchListing, optTruthy, h, h']
  · simp [determineMainBranch, scanBranchListing, optTruthy]

/-- Witness for C5: concrete instantiations of each fallback stage. -/
theorem default_branch_fallback_order_witness :
    determineMainBranch (some "refs/remotes/origin/trunk") (some "ignored") = "trunk" ∧
    determineMainBranch none (some "  origin/main") = "main" ∧
    determineMainBranch none (some "  origin/master") = "master" ∧
    determineMainBranch none (some "  origin/devel") = "main" := by
  refine ⟨?_, ?_, ?_, ?_⟩
  · have h := (default_branch_fallback_order "refs/remotes/origin/trunk" "").1
      (some "ignored") (by decide)
    rw [h]
    decide
  · exact (default_branch_fallback_order "" "  origin/main").2.1 (by decide) (by decide)
  · exact (default_branch_fallback_order "" "  origin/master").2.2.1
      (by decide) (by decide) (by decide)
  · exact (default_branch_fallback_order "" "  origin/devel").2.2.2.1
      (by decide) (by decide)

/-- Claim C10: any URL whose netloc merely CONTAINS `github.com` as a
substring is treated as GitHub when its path has at least two segments,
and the returned locator's remote URL is built with the literal host
`github.com`, not the URL's own netloc. -/
theorem github_substring_netloc_literal_host
    (p : ParsedUrl) (owner repo : String) (rest : List String)
    (hnet : strContainsSub p.netloc "github.com" = true)
    (hpath : pySplitSlash (stripSlashes p.path) = owner :: repo :: rest) :
    getRepoInfoParsed p =
      some ("https://github.com/" ++ owner ++ "/" ++ repo ++ ".git", owner, repo) := by
  simp [getRepoInfoParsed, hnet, hpath, List.getD]

/-- Witness for C10: `github.com` is a proper subdomain of an attacker
host, yet the resolver returns a `github.com`-based locator. -/
theorem github_substring_netloc_literal_host_witness :
    get_repo_info_from_url "https://github.com.evil.example/acme/widget/pull/7" =
      some ("https://github.com/acme/widget.git", "acme", "widget") := by
  show getRepoInfoParsed (urlparse "https://github.com.evil.example/acme/widget/pull/7") = _
  exact github_substring_netloc_literal_host
    (urlparse "https://github.com.evil.example/acme/widget/pull/7")
    "acme" "widget" ["pull", "7"] (by decide) (by decide)

/-- Claim C8: a URL that is neither a GitHub-substring netloc with at
least two path segments nor a Mozilla-Phabricator netloc resolves to
`none`, and `main` then exits with status 1 having performed no download,
no git command and no provisioning effect. -/
theorem unresolvable_url_halts_pipeline (args : MainArgs) (env : MainEnv)
    (hgh : ¬ (strContainsSub (urlparse args.url).netloc "github.com" = true ∧
              2 ≤ (pySplitSlash (stripSlashes (urlparse args.url).path)).length))
    (hph : ¬ (strContainsSub (urlparse args.url).netloc "phabricator" = true ∧
              strContainsSub (urlparse args.url).netloc "mozilla" = true)) :
    get_repo_info_from_url args.url = none ∧
    mainFlow args env = ⟨some 1, [], [], []⟩ := by
  have hres : get_repo_info_from_url args.url = none := by
    unfold get_repo_info_from_url getRepoInfoParsed
    by_cases h1 : strContainsSub (urlparse args.url).netloc "github.com" = true
    · have h2 : ¬ 2 ≤ (pySplitSlash (stripSlashes (urlparse args.url).path)).length := by
        intro hc
        exact hgh ⟨h1, hc⟩
      simp [h1, h2]
    · simp only [Bool.not_eq_true] at h1
      by_cases hpm : (strContainsSub (urlparse args.url).netloc "phabricator" &&
          strContainsSub (urlparse args.url).netloc "mozilla") = true
      · rw [Bool.and_eq_true] at hpm
        exact absurd hpm hph
      · simp only [Bool.not_eq_true] at hpm
        simp [h1, hpm]
  refine ⟨hres, ?_⟩
  unfold mainFlow
  rw [hres]

/-- Witness for C8: an unsupported GitLab URL halts the pipeline with
exit code 1 and an empty effect trace. -/
theorem unresolvable_url_halts_pipeline_witness :
    get_repo_info_from_url "https://gitlab.com/a/b" = none ∧
    mainFlow ⟨"https://gitlab.com/a/b", "/base", false, false⟩
        ⟨NetResult.err, NetResult.err,
         ⟨CmdResult.ok "", CmdResult.ok "", CmdResult.ok "", CmdResult.ok "",
          CmdResult.ok "", CmdResult.ok "", CmdResult.ok "", CmdResult.ok "",
          CmdResult.ok "", CmdResult.ok "", CmdResult.ok "", CmdResult.ok "",
          CmdResult.ok "", CmdResult.ok ""⟩,
         ⟨true, true⟩, ⟨[]⟩, 7, "/tmp/p.patch"⟩ =
      ⟨some 1, [], [], []⟩ :=
  unresolvable_url_halts_pipeline
    ⟨"https://gitlab.com/a/b", "/base", false, false⟩
    ⟨NetResult.err, NetResult.err,
     ⟨CmdResult.ok "", CmdResult.ok "", CmdResult.ok "", CmdResult.ok "",
      CmdResult.ok "", CmdResult.ok "", CmdResult.ok "", CmdResult.ok "",
      CmdResult.ok "", CmdResult.ok "", CmdResult.ok "", CmdResult.ok "",
      CmdResult.ok "", CmdResult.ok ""⟩,
     ⟨true, true⟩, ⟨[]⟩, 7, "/tmp/p.patch"⟩
    (by decide) (by decide)

/-- Claim C4: when a first `ensure_repository` call returns a repository
path, a second call with identical arguments returns the same path, never
performs a clone, and takes the fetch-update path (the directory and its
`.git` metadata exist after the first call). -/
theorem ensure_repository_idempotent (env1 env2 : EnsureEnv) (fs : FS)
    (repoUrl owner repo baseDir p : String)
    (h : (ensure_repository env1 fs repoUrl owner repo baseDir).path = some p) :
    (ensure_repository env2 (ensure_repository env1 fs repoUrl owner repo baseDir).fs
        repoUrl owner repo baseDir).path = some p ∧
    EnsureEffect.clone ∉
      (ensure_repository env2 (ensure_repository env1 fs repoUrl owner repo baseDir).fs
        repoUrl owner repo baseDir).effects ∧
    EnsureEffect.fetch ∈
      (ensure_repository env2 (ensure_repository env1 fs repoUrl owner repo baseDir).fs
        repoUrl owner repo baseDir).effects := by
  by_cases h1 : (fs.pathExists (baseDir ++ "/" ++ owner ++ "/" ++ repo) &&
      fs.pathExists (baseDir ++ "/" ++ owner ++ "/" ++ repo ++ "/.git")) = true
  · have hp : (ensure_repository env1 fs repoUrl owner repo baseDir).path =
        some (baseDir ++ "/" ++ owner ++ "/" ++ repo) := by
      simp [ensure_repository, h1]
    have hfs : (ensure_repository env1 fs repoUrl owner repo baseDir).fs = fs := by
      simp [ensure_repository, h1]
    rw [hp] at h
    obtain rfl := Option.some.inj h
    rw [hfs]
    refine ⟨?_, ?_, ?_⟩ <;> simp [ensure_repository, h1]
  · simp only [Bool.not_eq_true] at h1
    by_cases h2 : env1.cloneOk = true
    · have hp : (ensure_repository env1 fs repoUrl owner repo baseDir).path =
          some (baseDir ++ "/" ++ owner ++ "/" ++ repo) := by
        simp [ensure_repository, h1, h2]
      have hfs : (ensure_repository env1 fs repoUrl owner repo baseDir).fs =
          ⟨(baseDir ++ "/" ++ owner ++ "/" ++ repo) ::
           (baseDir ++ "/" ++ owner ++ "/" ++ repo ++ "/.git") ::
           (baseDir ++ "/" ++ owner) :: fs.paths⟩ := by
        simp [ensure_repository, h1, h2]
      rw [hp] at h
      obtain rfl := Option.some.inj h
      rw [hfs]
      have hcond : (FS.pathExists
            ⟨(baseDir ++ "/" ++ owner ++ "/" ++ repo) ::
             (baseDir ++ "/" ++ owner ++ "/" ++ repo ++ "/.git") ::
             (baseDir ++ "/" ++ owner) :: fs.paths⟩
            (baseDir ++ "/" ++ owner ++ "/" ++ repo) &&
          FS.pathExists
            ⟨(baseDir ++ "/" ++ owner ++ "/" ++ repo) ::
             (baseDir ++ "/" ++ owner ++ "/" ++ repo ++ "/.git") ::
             (baseDir ++ "/" ++ owner) :: fs.paths⟩
            (baseDir ++ "/" ++ owner ++ "/" ++ repo ++ "/.git")) = true := by
        simp [FS.pathExists]
      refine ⟨?_, ?_, ?_⟩ <;> simp [ensure_repository, hcond]
    · simp only [Bool.not_eq_true] at h2
      simp [ensure_repository, h1, h2] at h

/-- Witness for C4: a fresh clone followed by a second call that fetches
instead of cloning. -/
theorem ensure_repository_idempotent_witness :
    (ensure_repository ⟨true, true⟩ ⟨[]⟩ "https://github.com/a/b.git" "a" "b" "/base").path
      = some "/base/a/b" ∧
    (ensure_repository ⟨false, true⟩
        (ensure_repository ⟨true, true⟩ ⟨[]⟩ "https://github.com/a/b.git" "a" "b" "/base").fs
        "https://github.com/a/b.git" "a" "b" "/base").path = some "/base/a/b" ∧
    EnsureEffect.clone ∉
      (ensure_repository ⟨false, true⟩
        (ensure_repository ⟨true, true⟩ ⟨[]⟩ "https://github.com/a/b.git" "a" "b" "/base").fs
        "https://github.com/a/b.git" "a" "b" "/base").effects := by
  have h := ensure_repository_idempotent ⟨true, true⟩ ⟨false, true⟩ ⟨[]⟩
    "https://github.com/a/b.git" "a" "b" "/base" "/base/a/b" (by decide)
  exact ⟨by decide, h.1, h.2.1⟩

/-- Claim C7: with an existing repository (directory plus `.git`), a
failed fetch is non-fatal — the path is still returned and a warning
printed; when a clone is required and fails, no path is returned. -/
theorem ensure_fetch_nonfatal_clone_fatal (env : EnsureEnv) (fs : FS)
    (repoUrl owner repo baseDir : String) :
    ((fs.pathExists (baseDir ++ "/" ++ owner ++ "/" ++ repo) &&
      fs.pathExists (baseDir ++ "/" ++ owner ++ "/" ++ repo ++ "/.git")) = true →
      env.fetchOk = false →
      (ensure_repository env fs repoUrl owner repo baseDir).path =
        some (baseDir ++ "/" ++ owner ++ "/" ++ repo) ∧
      "Warning: Failed to update repository" ∈
        (ensure_repository env fs repoUrl owner repo baseDir).messages ∧
      EnsureEffect.clone ∉ (ensure_repository env fs repoUrl owner repo baseDir).effects) ∧
    ((fs.pathExists (baseDir ++ "/" ++ owner ++ "/" ++ repo) &&
      fs.pathExists (baseDir ++ "/" ++ owner ++ "/" ++ repo ++ "/.git")) = false →
      env.cloneOk = false →
      (ensure_repository env fs repoUrl owner repo baseDir).path = none) := by
  constructor
  · intro hex hf
    simp [ensure_repository, hex, hf]
  · intro hex hc
    simp [ensure_repository, hex, hc]

/-- Witness for C7: a failed fetch on an existing clone still yields the
path with a warning; a failed fresh clone yields no path. -/
theorem ensure_fetch_nonfatal_clone_fatal_witness :
    (ensure_repository ⟨false, true⟩ ⟨["/base/a/b", "/base/a/b/.git"]⟩
        "https://github.com/a/b.git" "a" "b" "/base").path = some "/base/a/b" ∧
    "Warning: Failed to update repository" ∈
      (ensure_repository ⟨false, true⟩ ⟨["/base/a/b", "/base/a/b/.git"]⟩
        "https://github.com/a/b.git" "a" "b" "/base").messages ∧
    (ensure_repository ⟨true, false⟩ ⟨[]⟩
        "https://github.com/a/b.git" "a" "b" "/base").path = none := by
  have h1 := (ensure_fetch_nonfatal_clone_fatal ⟨false, true⟩
    ⟨["/base/a/b", "/base/a/b/.git"]⟩ "https://github.com/a/b.git" "a" "b" "/base").1
    (by decide) (by decide)
  have h2 := (ensure_fetch_nonfatal_clone_fatal ⟨true, false⟩ ⟨[]⟩
    "https://github.com/a/b.git" "a" "b" "/base").2 (by decide) (by decide)
  exact ⟨h1.1, h1.2.1, h2⟩

/-! Helper lemmas shared by the Phabricator-endpoint theorems. -/

theorem str_data_append (s t : String) : (s ++ t).data = s.data ++ t.data := rfl

theorem str_eq_of_data (s t : String) (h : s.data = t.data) : s = t :=
  congrArg String.mk h

theorem takeWhile_append_of_all {p : Char → Bool} {l1 l2 : List Char}
    (h : ∀ c ∈ l1, p c = true) :
    (l1 ++ l2).takeWhile p = l1 ++ l2.takeWhile p := by
  induction l1 with
  | nil => simp
  | cons c tl ih =>
    have hc : p c = true := h c (List.mem_cons_self c tl)
    simp only [List.cons_append, List.takeWhile_cons, hc, if_true]
    rw [ih (fun d hd => h d (List.mem_cons_of_mem c hd))]

theorem takeWhile_head_false {p : Char → Bool} {l : List Char}
    (h : ∀ c, l.head? = some c → p c = false) : l.takeWhile p = [] := by
  cases l with
  | nil => rfl
  | cons c tl =>
    have hc : p c = false := h c rfl
    simp [List.takeWhile_cons, hc]

theorem stripLit_append (pre l : List Char) : stripLit pre (pre ++ l) = some l := by
  unfold stripLit
  rw [if_pos (List.isPrefixOf_iff_prefix.mpr (List.prefix_append pre l))]
  rw [List.drop_left]

theorem takeWhile1_all_append {p : Char → Bool} {l1 l2 : List Char}
    (h1 : l1 ≠ []) (hall : ∀ c ∈ l1, p c = true)
    (hhead : ∀ c, l2.head? = some c → p c = false) :
    takeWhile1 p (l1 ++ l2) = some (l1, l2) := by
  have ht : (l1 ++ l2).takeWhile p = l1 := by
    rw [takeWhile_append_of_all hall, takeWhile_head_false hhead, List.append_nil]
  have hne : l1.isEmpty = false := by
    cases l1
    · exact absurd rfl h1
    · rfl
  simp [takeWhile1, ht, hne, List.drop_left]

/-- Counterexample for C6: for the URL
`https://phab.example.org/x/D99`, whose path contains `/D99` but does not
START with it, the download-endpoint derivation of
`download_phabricator_patch` fails (the anchored `re.match` returns no
match and the Python raises `ValueError`), even though searching for
`/D<digits>` anywhere in the URL — the rule the claim states — finds the
diff identifier `99`. -/
theorem phab_diff_id_anchored_counterexample :
    download_phabricator_patch_url "https://phab.example.org/x/D99" = none ∧
    phabDiffIdSearch "https://phab.example.org/x/D99".data = some "99" := by
  exact ⟨rfl, rfl⟩

/-- Claim C6 amended: the diff identifier is extracted by matching
`https://<host>/D<digits>` anchored at the START of the URL (the
`/D<digits>` must be the beginning of the path), and the derived download
endpoint is that `https://<host>/D<digits>` URL with `?download=true`
appended. -/
theorem phab_download_endpoint (host digits rest : String)
    (hh : host.data ≠ [])
    (hhs : ∀ c ∈ host.data, (c != '/') = true)
    (hd : digits.data ≠ [])
    (hdd : ∀ c ∈ digits.data, c.isDigit = true)
    (hr : ∀ c, rest.data.head? = some c → c.isDigit = false) :
    download_phabricator_patch_url ("https://" ++ host ++ "/D" ++ digits ++ rest) =
      some ("https://" ++ host ++ "/D" ++ digits ++ "?download=true") := by
  have hdata : ("https://" ++ host ++ "/D" ++ digits ++ rest).data =
      "https://".data ++ (host.data ++ '/' :: 'D' :: (digits.data ++ rest.data)) := by
    simp [str_data_append, List.append_assoc]
  have h2 : takeWhile1 (fun c => c != '/')
      (host.data ++ '/' :: 'D' :: (digits.data ++ rest.data)) =
      some (host.data, '/' :: 'D' :: (digits.data ++ rest.data)) := by
    refine takeWhile1_all_append hh hhs ?_
    intro c hc
    have : c = '/' := (Option.some.inj hc).symm
    subst this
    rfl
  have h3 : takeWhile1 Char.isDigit (digits.data ++ rest.data) =
      some (digits.data, rest.data) :=
    takeWhile1_all_append hd hdd hr
  have h4 : phabAfterHost ('/' :: 'D' :: (digits.data ++ rest.data)) =
      some (String.mk digits.data) := by
    show (takeWhile1 Char.isDigit (digits.data ++ rest.data)).map
        (fun ds => String.mk ds.1) = _
    rw [h3]
    rfl
  have h5 : phabMatch ("https://" ++ host ++ "/D" ++ digits ++ rest) =
      some (String.mk ("https://".data ++ host.data), String.mk digits.data) := by
    unfold phabMatch
    rw [hdata, stripLit_append, Option.some_bind, h2, Option.some_bind, h4]
    rfl
  unfold download_phabricator_patch_url
  rw [h5]
  simp only [Option.map_some']
  refine congrArg some (str_eq_of_data _ _ ?_)
  simp [str_data_append, List.append_assoc]

/-- Witness for C6 amended: a Phabricator URL whose path starts with
`/D123456` maps to the download endpoint with `?download=true`. -/
theorem phab_download_endpoint_witness :
    download_phabricator_patch_url "https://phabricator.services.mozilla.com/D123456" =
      some "https://phabricator.services.mozilla.com/D123456?download=true" := by
  have h := phab_download_endpoint "phabricator.services.mozilla.com" "123456" ""
    (by decide) (by decide) (by decide) (by decide) (by decide)
  have heq : ("https://" ++ "phabricator.services.mozilla.com" ++ "/D" ++ "123456" ++ "" : String)
      = "https://phabricator.services.mozilla.com/D123456" := by decide
  have heq2 : ("https://" ++ "phabricator.services.mozilla.com" ++ "/D" ++ "123456" ++
      "?download=true" : String)
      = "https://phabricator.services.mozilla.com/D123456?download=true" := by decide
  rw [heq, heq2] at h
  exact h

/-! Helper lemmas about the branch-preparation phase of `apply_patch`. -/

theorem prepareBranch_ok (env : GitEnv) (pid : Nat) :
    (prepareBranch env pid).ok = runNoCapture env.checkoutNewBranch := by
  by_cases h1 : optTruthy (runCapture env.status) = true <;>
  by_cases h2 : runNoCapture env.stash = true <;>
  by_cases h3 : optTruthy (runCapture env.symbolicRef) = true <;>
  by_cases h4 : runNoCapture env.checkoutNewBranch = true <;>
  simp_all [prepareBranch]

theorem prepareBranch_trace_no_apply (env : GitEnv) (pid : Nat) :
    GitCmd.apply3way ∉ (prepareBranch env pid).trace ∧
    GitCmd.applyPlain ∉ (prepareBranch env pid).trace ∧
    GitCmd.applyWhitespace ∉ (prepareBranch env pid).trace ∧
    GitCmd.applyCheck ∉ (prepareBranch env pid).trace ∧
    GitCmd.applyStat ∉ (prepareBranch env pid).trace := by
  by_cases h1 : optTruthy (runCapture env.status) = true <;>
  by_cases h2 : runNoCapture env.stash = true <;>
  by_cases h3 : optTruthy (runCapture env.symbolicRef) = true <;>
  by_cases h4 : runNoCapture env.checkoutNewBranch = true <;>
  simp_all [prepareBranch]

theorem applyPatch_prep_fail (env : GitEnv) (pid : Nat) (pf : String)
    (h : runNoCapture env.checkoutNewBranch = false) :
    applyPatch env pid pf =
      ⟨false, Strategy.noStrategy, [], (prepareBranch env pid).trace,
        (prepareBranch env pid).messages⟩ := by
  have hok : (prepareBranch env pid).ok = false := by
    rw [prepareBranch_ok, h]
  simp [applyPatch, hok]

theorem applyPatch_prep_ok (env : GitEnv) (pid : Nat) (pf : String)
    (h : runNoCapture env.checkoutNewBranch = true) :
    applyPatch env pid pf =
      ⟨(applyStrategies env pf).succeeded, (applyStrategies env pf).strategyUsed,
        (applyStrategies env pf).diagnostics,
        (prepareBranch env pid).trace ++ (applyStrategies env pf).trace,
        (prepareBranch env pid).messages ++ (applyStrategies env pf).messages⟩ := by
  have hok : (prepareBranch env pid).ok = true := by
    rw [prepareBranch_ok, h]
  simp [applyPatch, hok]

/-- Claim C1: the apply engine tries three-way merge, then plain apply,
then whitespace-tolerant apply, in that fixed order, attempting each
strategy only when every earlier one failed and stopping at the first
success; in particular, when three-way fails and plain succeeds, the
outcome reports success via the plain strategy and the whitespace
strategy is never attempted. -/
theorem apply_strategy_order (env : GitEnv) (pid : Nat) (pf : String)
    (hprep : runNoCapture env.checkoutNewBranch = true) :
    (runNoCapture env.apply3way = true →
       (applyPatch env pid pf).succeeded = true ∧
       (applyPatch env pid pf).strategyUsed = Strategy.threeWay ∧
       (applyPatch env pid pf).trace =
         (prepareBranch env pid).trace ++ [GitCmd.apply3way] ∧
       GitCmd.applyPlain ∉ (applyPatch env pid pf).trace ∧
       GitCmd.applyWhitespace ∉ (applyPatch env pid pf).trace) ∧
    (runNoCapture env.apply3way = false → runNoCapture env.applyPlain = true →
       (applyPatch env pid pf).succeeded = true ∧
       (applyPatch env pid pf).strategyUsed = Strategy.plain ∧
       (applyPatch env pid pf).trace =
         (prepareBranch env pid).trace ++ [GitCmd.apply3way, GitCmd.applyPlain] ∧
       GitCmd.applyWhitespace ∉ (applyPatch env pid pf).trace) ∧
    (runNoCapture env.apply3way = false → runNoCapture env.applyPlain = false →
     runNoCapture env.applyWhitespace = true →
       (applyPatch env pid pf).succeeded = true ∧
       (applyPatch env pid pf).strategyUsed = Strategy.whitespaceFix ∧
       (applyPatch env pid pf).trace =
         (prepareBranch env pid).trace ++
           [GitCmd.apply3way, GitCmd.applyPlain, GitCmd.applyWhitespace]) := by
  have hnp := prepareBranch_trace_no_apply env pid
  rw [applyPatch_prep_ok env pid pf hprep]
  refine ⟨?_, ?_, ?_⟩
  · intro h3
    simp [applyStrategies, h3, hnp.2.1, hnp.2.2.1]
  · intro h3 hp
    simp [applyStrategies, h3, hp, hnp.2.2.1]
  · intro h3 hp hw
    simp [applyStrategies, h3, hp, hw]

/-- Witness for C1: three-way apply fails, plain apply succeeds; the
outcome reports the plain strategy and whitespace apply never runs. -/
theorem apply_strategy_order_witness :
    (applyPatch
        ⟨CmdResult.ok "", CmdResult.ok "", CmdResult.ok "", CmdResult.ok "",
         CmdResult.ok "refs/remotes/origin/main", CmdResult.ok "", CmdResult.ok "",
         CmdResult.ok "", CmdResult.ok "", CmdResult.fail "3way failed",
         CmdResult.ok "", CmdResult.ok "", CmdResult.ok "", CmdResult.ok ""⟩
        7 "/tmp/p.patch").succeeded = true ∧
    (applyPatch
        ⟨CmdResult.ok "", CmdResult.ok "", CmdResult.ok "", CmdResult.ok "",
         CmdResult.ok "refs/remotes/origin/main", CmdResult.ok "", CmdResult.ok "",
         CmdResult.ok "", CmdResult.ok "", CmdResult.fail "3way failed",
         CmdResult.ok "", CmdResult.ok "", CmdResult.ok "", CmdResult.ok ""⟩
        7 "/tmp/p.patch").strategyUsed = Strategy.plain ∧
    GitCmd.applyWhitespace ∉
      (applyPatch
        ⟨CmdResult.ok "", CmdResult.ok "", CmdResult.ok "", CmdResult.ok "",
         CmdResult.ok "refs/remotes/origin/main", CmdResult.ok "", CmdResult.ok "",
         CmdResult.ok "", CmdResult.ok "", CmdResult.fail "3way failed",
         CmdResult.ok "", CmdResult.ok "", CmdResult.ok "", CmdResult.ok ""⟩
        7 "/tmp/p.patch").trace := by
  have h := (apply_strategy_order
    ⟨CmdResult.ok "", CmdResult.ok "", CmdResult.ok "", CmdResult.ok "",
     CmdResult.ok "refs/remotes/origin/main", CmdResult.ok "", CmdResult.ok "",
     CmdResult.ok "", CmdResult.ok "", CmdResult.fail "3way failed",
     CmdResult.ok "", CmdResult.ok "", CmdResult.ok "", CmdResult.ok ""⟩
    7 "/tmp/p.patch" (by decide)).2.1 (by decide) (by decide)
  exact ⟨h.1, h.2.1, h.2.2.2⟩

/-- Claim C2: when all three application strategies fail, `apply_patch`
returns a failure outcome with non-empty diagnostics that include the
dry-run conflict check and the stat summary, and (being a total function
of the command outcomes) never raises an unhandled error. -/
theorem apply_all_strategies_fail_reports_failure (env : GitEnv) (pid : Nat) (pf : String)
    (hprep : runNoCapture env.checkoutNewBranch = true)
    (h3 : runNoCapture env.apply3way = false)
    (hp : runNoCapture env.applyPlain = false)
    (hw : runNoCapture env.applyWhitespace = false) :
    (applyPatch env pid pf).succeeded = false ∧
    (applyPatch env pid pf).strategyUsed = Strategy.noStrategy ∧
    (applyPatch env pid pf).diagnostics ≠ [] ∧
    "All apply methods failed. Checking for conflicts..." ∈
      (applyPatch env pid pf).diagnostics ∧
    "Error: Failed to apply patch cleanly" ∈ (applyPatch env pid pf).diagnostics ∧
    GitCmd.applyCheck ∈ (applyPatch env pid pf).trace ∧
    GitCmd.applyStat ∈ (applyPatch env pid pf).trace := by
  rw [applyPatch_prep_ok env pid pf hprep]
  simp [applyStrategies, h3, hp, hw]

/-- Witness for C2: all three strategies fail; the outcome is a failure
with non-empty diagnostics. -/
theorem apply_all_strategies_fail_reports_failure_witness :
    (applyPatch
        ⟨CmdResult.ok "", CmdResult.ok "", CmdResult.ok "", CmdResult.ok "",
         CmdResult.ok "refs/remotes/origin/main", CmdResult.ok "", CmdResult.ok "",
         CmdResult.ok "", CmdResult.ok "", CmdResult.fail "a", CmdResult.fail "b",
         CmdResult.fail "c", CmdResult.fail "d", CmdResult.fail "e"⟩
        7 "/tmp/p.patch").succeeded = false ∧
    (applyPatch
        ⟨CmdResult.ok "", CmdResult.ok "", CmdResult.ok "", CmdResult.ok "",
         CmdResult.ok "refs/remotes/origin/main", CmdResult.ok "", CmdResult.ok "",
         CmdResult.ok "", CmdResult.ok "", CmdResult.fail "a", CmdResult.fail "b",
         CmdResult.fail "c", CmdResult.fail "d", CmdResult.fail "e"⟩
        7 "/tmp/p.patch").diagnostics ≠ [] := by
  have h := apply_all_strategies_fail_reports_failure
    ⟨CmdResult.ok "", CmdResult.ok "", CmdResult.ok "", CmdResult.ok "",
     CmdResult.ok "refs/remotes/origin/main", CmdResult.ok "", CmdResult.ok "",
     CmdResult.ok "", CmdResult.ok "", CmdResult.fail "a", CmdResult.fail "b",
     CmdResult.fail "c", CmdResult.fail "d", CmdResult.fail "e"⟩
    7 "/tmp/p.patch" (by decide) (by decide) (by decide) (by decide)
  exact ⟨h.1, h.2.2.1⟩

theorem prepareBranch_trace_clean (env : GitEnv) (pid : Nat)
    (h : optTruthy (runCapture env.status) = false) :
    (prepareBranch env pid).trace =
      [GitCmd.status] ++
      (if optTruthy (runCapture env.symbolicRef) = true then [GitCmd.symbolicRef]
       else [GitCmd.symbolicRef, GitCmd.branchList]) ++
      [GitCmd.checkoutMain
         (determineMainBranch (runCapture env.symbolicRef) (runCapture env.branchList)),
       GitCmd.pullMain
         (determineMainBranch (runCapture env.symbolicRef) (runCapture env.branchList)),
       GitCmd.checkoutNewBranch ("patch-review-" ++ toString pid)] := by
  by_cases h3 : optTruthy (runCapture env.symbolicRef) = true <;>
  by_cases h4 : runNoCapture env.checkoutNewBranch = true <;>
  simp [prepareBranch, h, h3, h4]

/-- Claim C9: when the status query itself fails (non-zero exit or
exception, so `run_command` returns `None`), the engine behaves exactly
as on a clean tree: no stash, no hard reset, no clean; it proceeds
directly to default-branch determination, checkout/pull, and branch
creation, and its git trace is identical to that of an empty (clean)
status. -/
theorem status_failure_treated_as_clean (env : GitEnv) (pid : Nat) (pf : String)
    (h : runCapture env.status = none) :
    GitCmd.stash ∉ (applyPatch env pid pf).trace ∧
    GitCmd.resetHard ∉ (applyPatch env pid pf).trace ∧
    GitCmd.clean ∉ (applyPatch env pid pf).trace ∧
    GitCmd.symbolicRef ∈ (applyPatch env pid pf).trace ∧
    GitCmd.checkoutNewBranch ("patch-review-" ++ toString pid) ∈
      (applyPatch env pid pf).trace ∧
    (applyPatch env pid pf).trace =
      (applyPatch { env with status := CmdResult.ok "" } pid pf).trace := by
  have hto : optTruthy (runCapture env.status) = false := by
    rw [h]
    rfl
  have hmem : GitCmd.stash ∉ (prepareBranch env pid).trace ∧
      GitCmd.resetHard ∉ (prepareBranch env pid).trace ∧
      GitCmd.clean ∉ (prepareBranch env pid).trace ∧
      GitCmd.symbolicRef ∈ (prepareBranch env pid).trace ∧
      GitCmd.checkoutNewBranch ("patch-review-" ++ toString pid) ∈
        (prepareBranch env pid).trace := by
    rw [prepareBranch_trace_clean env pid hto]
    by_cases h3 : optTruthy (runCapture env.symbolicRef) = true <;> simp [h3]
  have hto2 : optTruthy (runCapture
      ({ env with status := CmdResult.ok "" } : GitEnv).status) = false := by
    show optTruthy (runCapture (CmdResult.ok "")) = false
    decide
  have htrace : (prepareBranch env pid).trace =
      (prepareBranch { env with status := CmdResult.ok "" } pid).trace := by
    rw [prepareBranch_trace_clean env pid hto,
      prepareBranch_trace_clean { env with status := CmdResult.ok "" } pid hto2]
  have hstrat : ∀ c : GitCmd, c ∈ (applyStrategies env pf).trace →
      c = GitCmd.apply3way ∨ c = GitCmd.applyPlain ∨ c = GitCmd.applyWhitespace ∨
      c = GitCmd.applyCheck ∨ c = GitCmd.applyStat := by
    intro c hc
    by_cases h3 : runNoCapture env.apply3way = true <;>
    by_cases hp : runNoCapture env.applyPlain = true <;>
    by_cases hw : runNoCapture env.applyWhitespace = true <;>
    simp [applyStrategies, h3, hp, hw] at hc <;> tauto
  by_cases hcb : runNoCapture env.checkoutNewBranch = true
  · rw [applyPatch_prep_ok env pid pf hcb,
      applyPatch_prep_ok { env with status := CmdResult.ok "" } pid pf hcb]
    refine ⟨?_, ?_, ?_, ?_, ?_, ?_⟩
    · intro hc
      rcases List.mem_append.mp hc with hc1 | hc2
      · exact hmem.1 hc1
      · rcases hstrat _ hc2 with h' | h' | h' | h' | h' <;> exact absurd h' (by decide)
    · intro hc
      rcases List.mem_append.mp hc with hc1 | hc2
      · exact hmem.2.1 hc1
      · rcases hstrat _ hc2 with h' | h' | h' | h' | h' <;> exact absurd h' (by decide)
    · intro hc
      rcases List.mem_append.mp hc with hc1 | hc2
      · exact hmem.2.2.1 hc1
      · rcases hstrat _ hc2 with h' | h' | h' | h' | h' <;> exact absurd h' (by decide)
    · exact List.mem_append.mpr (Or.inl hmem.2.2.2.1)
    · exact List.mem_append.mpr (Or.inl hmem.2.2.2.2)
    · show (prepareBranch env pid).trace ++ (applyStrategies env pf).trace =
        (prepareBranch { env with status := CmdResult.ok "" } pid).trace ++
          (applyStrategies { env with status := CmdResult.ok "" } pf).trace
      rw [htrace]
      rfl
  · have hcb' : runNoCapture env.checkoutNewBranch = false := by
      simpa using hcb
    rw [applyPatch_prep_fail env pid pf hcb',
      applyPatch_prep_fail { env with status := CmdResult.ok "" } pid pf hcb']
    exact ⟨hmem.1, hmem.2.1, hmem.2.2.1, hmem.2.2.2.1, hmem.2.2.2.2, htrace⟩

/-- Witness for C9: a failing status command yields a run with no stash,
reset or clean, proceeding to branch creation. -/
theorem status_failure_treated_as_clean_witness :
    GitCmd.stash ∉
      (applyPatch
        ⟨CmdResult.fail "index locked", CmdResult.ok "", CmdResult.ok "", CmdResult.ok "",
         CmdResult.ok "refs/remotes/origin/main", CmdResult.ok "", CmdResult.ok "",
         CmdResult.ok "", CmdResult.ok "", CmdResult.ok "", CmdResult.ok "",
         CmdResult.ok "", CmdResult.ok "", CmdResult.ok ""⟩
        7 "/tmp/p.patch").trace ∧
    GitCmd.symbolicRef ∈
      (applyPatch
        ⟨CmdResult.fail "index locked", CmdResult.ok "", CmdResult.ok "", CmdResult.ok "",
         CmdResult.ok "refs/remotes/origin/main", CmdResult.ok "", CmdResult.ok "",
         CmdResult.ok "", CmdResult.ok "", CmdResult.ok "", CmdResult.ok "",
         CmdResult.ok "", CmdResult.ok "", CmdResult.ok ""⟩
        7 "/tmp/p.patch").trace := by
  have h := status_failure_treated_as_clean
    ⟨CmdResult.fail "index locked", CmdResult.ok "", CmdResult.ok "", CmdResult.ok "",
     CmdResult.ok "refs/remotes/origin/main", CmdResult.ok "", CmdResult.ok "",
     CmdResult.ok "", CmdResult.ok "", CmdResult.ok "", CmdResult.ok "",
     CmdResult.ok "", CmdResult.ok "", CmdResult.ok ""⟩
    7 "/tmp/p.patch" (by decide)
  exact ⟨h.1, h.2.2.2.1⟩

theorem prepareBranch_fail_message (env : GitEnv) (pid : Nat)
    (hcb : runNoCapture env.checkoutNewBranch = false) :
    "Error: Failed to create branch" ∈ (prepareBranch env pid).messages := by
  by_cases h1 : optTruthy (runCapture env.status) = true <;>
  by_cases h2 : runNoCapture env.stash = true <;>
  by_cases h3 : optTruthy (runCapture env.symbolicRef) = true <;>
  simp [prepareBranch, h1, h2, h3, hcb]

/-- Counterexample for C3: a concrete run in which isolation-branch
creation fails (`git checkout -b` exits non-zero).  No application
strategy is attempted — but the pipeline does NOT terminate: `main`
completes normally (exit code `none`), emits the apply-failure warning,
and continues to downstream analysis with the original patch text,
contradicting the claim that the run is fatal. -/
theorem branch_create_pipeline_continues_counterexample :
    runNoCapture cbFailGitEnv.checkoutNewBranch = false ∧
    (mainFlow c3MainArgs c3MainEnv).exitCode = none ∧
    MainStep.analyze true ∈ (mainFlow c3MainArgs c3MainEnv).steps ∧
    MainStep.warnApplyFailed ∈ (mainFlow c3MainArgs c3MainEnv).steps ∧
    GitCmd.apply3way ∉ (mainFlow c3MainArgs c3MainEnv).gitTrace ∧
    GitCmd.applyPlain ∉ (mainFlow c3MainArgs c3MainEnv).gitTrace ∧
    GitCmd.applyWhitespace ∉ (mainFlow c3MainArgs c3MainEnv).gitTrace := by
  decide

/-- Claim C3 amended: if creation of the isolation branch fails, no
patch-application strategy is attempted and `apply_patch` reports
failure with an error message; however the run is NOT fatal — `main`
prints a warning and continues to downstream analysis using the original
patch text rather than terminating. -/
theorem branch_create_failure_behavior (env : GitEnv) (pid : Nat) (pf : String)
    (args : MainArgs) (menv : MainEnv) (ru ow rp ep body rpth : String)
    (hcb : runNoCapture env.checkoutNewBranch = false) :
    ((applyPatch env pid pf).succeeded = false ∧
     (applyPatch env pid pf).strategyUsed = Strategy.noStrategy ∧
     GitCmd.apply3way ∉ (applyPatch env pid pf).trace ∧
     GitCmd.applyPlain ∉ (applyPatch env pid pf).trace ∧
     GitCmd.applyWhitespace ∉ (applyPatch env pid pf).trace ∧
     "Error: Failed to create branch" ∈ (applyPatch env pid pf).messages) ∧
    (args.noCheckout = false → args.noApply = false →
     get_repo_info_from_url args.url = some (ru, ow, rp) →
     strContainsSub (urlparse args.url).netloc "github.com" = true →
     download_github_patch_url args.url = some ep →
     menv.githubNet = NetResult.ok body →
     (ensure_repository menv.ensure menv.fs ru ow rp args.baseDir).path = some rpth →
     menv.git = env → menv.pid = pid → menv.patchFile = pf →
     (mainFlow args menv).exitCode = none ∧
     MainStep.analyze true ∈ (mainFlow args menv).steps ∧
     MainStep.warnApplyFailed ∈ (mainFlow args menv).steps) := by
  have hnp := prepareBranch_trace_no_apply env pid
  have happ := applyPatch_prep_fail env pid pf hcb
  have hsucc : (applyPatch env pid pf).succeeded = false := by
    rw [happ]
  constructor
  · rw [happ]
    exact ⟨rfl, rfl, hnp.1, hnp.2.1, hnp.2.2.1,
      prepareBranch_fail_message env pid hcb⟩
  · intro hnc hna hres hnet hep hnetres hens hgit hpid hpf
    subst hgit
    subst hpid
    subst hpf
    unfold mainFlow
    rw [hres]
    simp [hnet, hep, hnetres, hnc, hna, hens, hsucc]

/-- Witness for C3 amended: the concrete failing-branch-creation run. -/
theorem branch_create_failure_behavior_witness :
    (applyPatch cbFailGitEnv 7 "/tmp/p.patch").succeeded = false ∧
    "Error: Failed to create branch" ∈
      (applyPatch cbFailGitEnv 7 "/tmp/p.patch").messages ∧
    (mainFlow c3MainArgs c3MainEnv).exitCode = none ∧
    MainStep.analyze true ∈ (mainFlow c3MainArgs c3MainEnv).steps := by
  have h := branch_create_failure_behavior cbFailGitEnv 7 "/tmp/p.patch"
    c3MainArgs c3MainEnv
    "https://github.com/acme/widget.git" "acme" "widget"
    "https://github.com/acme/widget/pull/42.diff" "patch body" "/base/acme/widget"
    (by decide)
  have h2 := h.2 rfl rfl (by decide) (by decide) (by decide) rfl (by decide) rfl rfl rfl
  exact ⟨h.1.1, h.1.2.2.2.2.2, h2.1, h2.2.1⟩

end PatchReview
